import Mathlib

/-!
Verification of the tabular-data utility module `fetch-analytics/utils.py`.

The file shallowly embeds the module's data model and operations:

* `DataFrame` models a pandas data frame: an ordered list of named columns,
  each a list of cells, a row index of labels, and an optional index name.
  Cells are `Option String`: `none` is a null (`None`/`NaN`), `some s` a
  string value.  The width estimator stringifies every cell with
  `astype('str')` before measuring, so string cells cover the behaviour
  under study.
* `calc_col_lengths`, `pd_preview` (and its cell-lookup error message),
  `pd_cols_remove_special_characters`, `pd_rename_cols`, `load_json` and
  `convert_epoch_to_datetime` are translated from the source one for one.
  Python idioms are modelled explicitly: `repr` of a string by `pyRepr`,
  `sorted` by `pySorted`, the regex character class of `re.sub` by
  `regexClassItems`, a raised exception by an explicit error value, and
  in-place mutation by returning the new state.
* Machine arithmetic: the source computes `int(m + m * 0.01)` on a numpy
  integer `m`; the model uses `m + m / 100` on `Nat`, which agrees with the
  float computation for every length below `10 ^ 13` (the rounding error of
  `m * 0.01` is far below the distance `1 / 100` of the exact value to the
  truncation boundary).
-/

set_option maxRecDepth 8192

/-- The apostrophe character (Python's preferred string-literal quote). -/
def sqChar : Char := Char.ofNat 39

/-- The double-quote character. -/
def dqChar : Char := Char.ofNat 34

/-- The backslash character. -/
def bsChar : Char := Char.ofNat 92

/-- The apostrophe as a string. -/
def sqStr : String := String.singleton sqChar

/-- Lowercase hexadecimal digit for `n < 16`. -/
def hexDigitChar (n : Nat) : Char :=
  if n < 10 then Char.ofNat (48 + n) else Char.ofNat (87 + n)

/-- One character of CPython's `repr` of a `str`, given the chosen quote
character `q`: backslash and the quote are backslash-escaped, newline,
carriage return and tab become `\n`, `\r`, `\t`, other C0 controls and
DEL become `\xhh`.  Code points at `0x80` and above are kept verbatim
(CPython escapes only the non-printable ones; the repository's data is
covered by this fragment). -/
def pyReprEscChar (q : Char) (c : Char) : List Char :=
  if c = bsChar ∨ c = q then [bsChar, c]
  else if c = Char.ofNat 10 then [bsChar, 'n']
  else if c = Char.ofNat 13 then [bsChar, 'r']
  else if c = Char.ofNat 9 then [bsChar, 't']
  else if c.toNat < 32 ∨ c.toNat = 127 then
    [bsChar, 'x', hexDigitChar (c.toNat / 16), hexDigitChar (c.toNat % 16)]
  else [c]

/-- CPython's `repr` of a `str`: surrounded by apostrophes, or by double
quotes when the string holds an apostrophe but no double quote. -/
def pyRepr (s : String) : String :=
  let q := if s.data.contains sqChar && !(s.data.contains dqChar) then dqChar else sqChar
  String.mk ((q :: s.data.flatMap (pyReprEscChar q)) ++ [q])

/-- Python `repr` of a list of strings, as interpolated by an f-string:
bracketed, comma-space separated, elements via `pyRepr`. -/
def pyListRepr (l : List String) : String :=
  "[" ++ String.intercalate ", " (l.map pyRepr) ++ "]"

/-- Lexicographic order on code-point sequences: exactly Python's
comparison of `str` values. -/
def charListLe : List Char → List Char → Bool
  | [], _ => true
  | _ :: _, [] => false
  | a :: as, b :: bs =>
    if a.toNat < b.toNat then true
    else if b.toNat < a.toNat then false
    else charListLe as bs

/-- Python's `<=` on strings. -/
def pyStrLe (a b : String) : Bool :=
  charListLe a.data b.data

/-- Stable insertion into an ascending list (Python's string order). -/
def insertLe (x : String) : List String → List String
  | [] => [x]
  | y :: ys => if pyStrLe y x then y :: insertLe x ys else x :: y :: ys

/-- Python's `sorted` on a list of strings. -/
def pySorted : List String → List String
  | [] => []
  | x :: xs => insertLe x (pySorted xs)

/-- A pandas `DataFrame` over string-valued cells: ordered named columns
(duplicate names allowed), a row index of labels (duplicates allowed), and
an optional index name.  Invariant of the data model (spec section 3):
every column has the same length as the row index; theorems that need it
take it as a hypothesis. -/
structure DataFrame where
  cols : List (String × List (Option String))
  index : List String
  indexName : Option String
deriving DecidableEq, Repr

/-- The column names in order (`list(df.columns)`). -/
def DataFrame.colNames (df : DataFrame) : List String :=
  df.cols.map Prod.fst

/-- pandas `df.empty`: true when any axis has length zero. -/
def DataFrame.isEmptyDf (df : DataFrame) : Bool :=
  df.cols.isEmpty || df.index.isEmpty

/-- The cell list of the first column named `col` (`df[col]` under unique
column labels), `[]` when absent. -/
def DataFrame.getColVals (df : DataFrame) (col : String) : List (Option String) :=
  match df.cols.find? (fun c => c.1 == col) with
  | some c => c.2
  | none => []

/-- The source's inner `_to_literal`: `repr(val)[1:-1]` — the repr of the
(already stringified) value with its first and last character (the
surrounding quotes) removed; the source then encodes it to UTF-8 bytes. -/
def to_literal (val : String) : String :=
  (pyRepr val).drop 1 |>.dropRight 1

/-- Byte lengths measured by the estimator for one column: the non-null
cells (`df[~df[col].isnull()][col]`), stringified (`astype('str')` is the
identity on string cells), through `_to_literal`, then the byte length
(`.str.len()` of the encoded bytes). -/
def col_literal_lens (df : DataFrame) (col : String) : List Nat :=
  ((df.getColVals col).filterMap id).map (fun v => (to_literal v).utf8ByteSize)

/-- The result of `.max()` over a pandas series of lengths: a numpy integer
when the series is non-empty, numpy `NaN` (a float) when it is empty. -/
inductive SeriesMax where
  | nan : SeriesMax
  | int : Nat → SeriesMax
deriving DecidableEq

/-- `.max()` of a list of lengths. -/
def seriesMax (xs : List Nat) : SeriesMax :=
  match xs.max? with
  | none => SeriesMax.nan
  | some m => SeriesMax.int m

/-- `isinstance(max_length, Number)`: both numpy integers and the `NaN`
float are instances of `numbers.Number`, so this is always true. -/
def isinstanceNumber : SeriesMax → Bool
  | _ => true

/-- The source's `try: int(max_length + max_length * buffer_percentage)
except ValueError: 0` with `buffer_percentage = 0.01`: `int` of `NaN`
raises `ValueError` (caught, giving 0); on an integer it truncates the
1%-inflated value. -/
def tryIntBuffer : SeriesMax → Nat
  | SeriesMax.nan => 0
  | SeriesMax.int m => m + m / 100

/-- `calc_col_lengths` (utils.py lines 16-65): the mapping from column
name to estimated width, in column order; the empty map on an empty frame. -/
def calc_col_lengths (df : DataFrame) : List (String × Nat) :=
  if df.isEmptyDf then []
  else
    df.colNames.filterMap (fun col =>
      let max_length := seriesMax (col_literal_lens df col)
      if isinstanceNumber max_length then some (col, tryIntBuffer max_length)
      else none)

/-- Looking a key up in an association list built by pairing each name with
a computed value finds the computed value of the key. -/
theorem lookup_map_self (f : String → Nat) :
    ∀ (l : List String) (col : String), col ∈ l →
      List.lookup col (l.map (fun n => (n, f n))) = some (f col) := by
  intro l
  induction l with
  | nil => intro col h; cases h
  | cons x xs ih =>
    intro col h
    by_cases hx : col = x
    · subst hx; simp [List.lookup]
    · have hmem : col ∈ xs := by
        cases h with
        | head => exact absurd rfl hx
        | tail _ h => exact h
      have hbeq : (col == x) = false := by
        simp [beq_iff_eq, hx]
      simp only [List.map_cons, List.lookup, hbeq]
      exact ih col hmem

/-- A frame with a column and a row is not `empty`. -/
theorem isEmptyDf_false_of (df : DataFrame) (hcols : df.cols ≠ [])
    (hrows : df.index ≠ []) : df.isEmptyDf = false := by
  unfold DataFrame.isEmptyDf
  simp [List.isEmpty_iff, hcols, hrows]

/-- On a non-empty frame, `calc_col_lengths` maps every column name to its
estimate, in order (the `isinstance(…, Number)` guard is always true). -/
theorem calc_col_lengths_eq_map (df : DataFrame) (h : df.isEmptyDf = false) :
    calc_col_lengths df =
      df.colNames.map
        (fun col => (col, tryIntBuffer (seriesMax (col_literal_lens df col)))) := by
  unfold calc_col_lengths
  rw [h]
  simp only [Bool.false_eq_true, if_false, isinstanceNumber, if_true]
  induction df.colNames with
  | nil => rfl
  | cons x xs ih => simp only [List.filterMap_cons, List.map_cons, ih]

/-- A column whose width list has a maximum is a real, inhabited column:
its frame has that column and at least one row. -/
theorem frame_nonempty_of_max (df : DataFrame) (col : String) (m : Nat)
    (hwf : ∀ c ∈ df.cols, c.2.length = df.index.length)
    (hmem : col ∈ df.colNames)
    (hm : (col_literal_lens df col).max? = some m) :
    df.isEmptyDf = false := by
  have hcols : df.cols ≠ [] := by
    intro h
    rw [DataFrame.colNames, h] at hmem
    cases hmem
  have hlens : col_literal_lens df col ≠ [] := by
    intro h
    rw [h] at hm
    cases hm
  have hvals : (df.getColVals col).filterMap id ≠ [] := by
    intro h
    exact hlens (by rw [col_literal_lens, h]; rfl)
  have hget : df.getColVals col ≠ [] := by
    intro h
    exact hvals (by rw [h]; rfl)
  have hrows : df.index ≠ [] := by
    unfold DataFrame.getColVals at hget
    cases hfind : df.cols.find? (fun c => c.1 == col) with
    | none => rw [hfind] at hget; exact absurd rfl hget
    | some c =>
      rw [hfind] at hget
      have hc : c ∈ df.cols := List.mem_of_find?_eq_some hfind
      have hlen : c.2.length = df.index.length := hwf c hc
      intro hidx
      rw [hidx] at hlen
      exact hget (List.eq_nil_of_length_eq_zero hlen)
  exact isEmptyDf_false_of df hcols hrows

/-- C1, amended.  The source's `_to_literal` is `repr(val)[1:-1]`: the
surrounding quote characters are stripped before measuring, so the
estimator maps a column with a non-null value to the maximum, over its
non-null values, of the byte length of the value's literal representation
with the two surrounding quote characters removed, increased by 1% and
truncated; in particular the result is at least that stripped maximum
byte length. -/
theorem c1_theorem (df : DataFrame) (col : String) (m : Nat)
    (hnd : df.colNames.Nodup)
    (hwf : ∀ c ∈ df.cols, c.2.length = df.index.length)
    (hmem : col ∈ df.colNames)
    (hm : (col_literal_lens df col).max? = some m) :
    List.lookup col (calc_col_lengths df) = some (m + m / 100)
      ∧ m ≤ m + m / 100 := by
  have hne := frame_nonempty_of_max df col m hwf hmem hm
  rw [calc_col_lengths_eq_map df hne]
  rw [lookup_map_self _ df.colNames col hmem]
  unfold seriesMax
  rw [hm]
  exact ⟨rfl, Nat.le_add_right m (m / 100)⟩

/-- Modelled from the spec: width of a value as the spec's words describe
it — the canonical string literal representation including the
surrounding quote characters, measured in UTF-8 bytes. -/
def spec_literal_byte_len (v : String) : Nat :=
  (pyRepr v).utf8ByteSize

/-- Modelled from the spec: the byte lengths the spec prescribes for a
column (quotes included). -/
def spec_col_literal_lens (df : DataFrame) (col : String) : List Nat :=
  ((df.getColVals col).filterMap id).map spec_literal_byte_len

/-- A one-cell frame refuting claim C1 as stated. -/
def dfC1 : DataFrame := ⟨[("c", [some "abc"])], ["0"], none⟩

/-- C1 fails as stated: for the cell value `abc` the canonical literal is
`'abc'`, 5 bytes with the surrounding quotes, so the claim prescribes the
entry `int(5 * 1.01) = 5`; the code computes 3 (it strips the quotes), and
3 is not at least 5. -/
theorem c1_counterexample :
    List.lookup "c" (calc_col_lengths dfC1) = some 3
      ∧ (spec_col_literal_lens dfC1 "c").max? = some 5
      ∧ (3 : Nat) ≠ 5 + 5 / 100
      ∧ ¬ (5 ≤ 3) := by
  refine ⟨by decide, by decide, by decide, by decide⟩

/-- A two-row frame exercising `c1_theorem` concretely. -/
def dfC1w : DataFrame := ⟨[("c", [some "ab", none])], ["0", "1"], none⟩

/-- Witness for `c1_theorem`: on `dfC1w` the stripped literal of `ab` has
2 bytes and the estimator returns `2 + 2 / 100 = 2`. -/
theorem c1_witness :
    List.lookup "c" (calc_col_lengths dfC1w) = some (2 + 2 / 100)
      ∧ 2 ≤ 2 + 2 / 100 :=
  c1_theorem dfC1w "c" 2 (by decide) (by decide) (by decide) (by decide)

/-- C2, amended.  In a frame with at least one row, a column with no
non-null value is not omitted: the empty series' maximum is `NaN`, which
is an instance of `Number` but fails coercion to `int` with `ValueError`,
so the column's entry is present with value 0.  (This is not the only
source of 0 entries: a column of empty strings also gets 0, through the
successful coercion `int(0 + 0 * 0.01)`.) -/
theorem c2_theorem (df : DataFrame) (col : String)
    (hnd : df.colNames.Nodup)
    (hmem : col ∈ df.colNames)
    (hrows : df.index ≠ [])
    (hnull : (df.getColVals col).filterMap id = []) :
    List.lookup col (calc_col_lengths df) = some 0 := by
  have hcols : df.cols ≠ [] := by
    intro h
    rw [DataFrame.colNames, h] at hmem
    cases hmem
  have hne := isEmptyDf_false_of df hcols hrows
  rw [calc_col_lengths_eq_map df hne]
  rw [lookup_map_self _ df.colNames col hmem]
  have hlens : col_literal_lens df col = [] := by
    rw [col_literal_lens, hnull]; rfl
  rw [hlens]
  rfl

/-- A one-row frame whose only column is entirely null. -/
def dfC2 : DataFrame := ⟨[("c", [none])], ["0"], none⟩

/-- C2 fails as stated: on a one-row frame whose column `c` has no
non-null value, the entry for `c` is present with value 0, not absent. -/
theorem c2_counterexample :
    calc_col_lengths dfC2 = [("c", 0)]
      ∧ List.lookup "c" (calc_col_lengths dfC2) ≠ none := by
  refine ⟨by decide, by decide⟩

/-- A frame with one all-null column next to a non-null one. -/
def dfC2w : DataFrame := ⟨[("a", [none]), ("b", [some "x"])], ["0"], none⟩

/-- Witness for `c2_theorem`: the all-null column `a` of `dfC2w` gets the
entry 0. -/
theorem c2_witness : List.lookup "a" (calc_col_lengths dfC2w) = some 0 :=
  c2_theorem dfC2w "a" (by decide) (by decide) (by decide) (by decide)

/-- Start of the message of the `ValueError` raised by `pd_preview` when
`df.at[idx, col]` fails (utils.py line 135). -/
def at_error_base (idx col : String) : String :=
  "Could not get value at (" ++ idx ++ ", " ++ col ++ ")."

/-- The clause appended when the index is not unique (lines 136-141). -/
def at_error_index_clause : String :=
  " Index is not unique; you may need to specify a different index column(s) or set index_col=False when creating the DataFrame."

/-- The clause appended when the column names are not unique, up to the
interpolated list (lines 142-147). -/
def at_error_cols_lead : String :=
  " Column names are not unique; you may need to rename duplicate columns or specify fixed column names when creating the DataFrame: "

/-- The full message of the error `pd_preview` raises when the cell lookup
at `(idx, col)` fails (utils.py lines 134-148): the base names the row and
column; a non-unique index and non-unique column names each append their
clause, the latter interpolating `sorted(df.columns)` — all column names,
sorted. -/
def pd_preview_at_error_msg (df : DataFrame) (idx col : String) : String :=
  let m1 := at_error_base idx col
  let m2 := if df.index.Nodup then m1 else m1 ++ at_error_index_clause
  if df.colNames.Nodup then m2
  else m2 ++ (at_error_cols_lead ++ pyListRepr (pySorted df.colNames) ++ ".")

/-- Modelled from the spec: the duplicate column names — those occurring
more than once — each listed once. -/
def dupColNames (names : List String) : List String :=
  names.dedup.filter (fun x => 2 ≤ names.count x)

/-- Modelled from the spec: the lookup-failure message as the spec's words
require it — identical, except that the column clause reports the sorted
list of only the duplicate column names. -/
def spec_preview_at_error_msg (df : DataFrame) (idx col : String) : String :=
  let m1 := at_error_base idx col
  let m2 := if df.index.Nodup then m1 else m1 ++ at_error_index_clause
  if df.colNames.Nodup then m2
  else m2 ++ (at_error_cols_lead ++ pyListRepr (pySorted (dupColNames df.colNames)) ++ ".")

/-- C3, amended.  When the column names are not unique, the raised
message names the failing row and column and reports the sorted list of
all column names (not only the duplicated ones). -/
theorem c3_theorem (df : DataFrame) (idx col : String)
    (h : ¬ df.colNames.Nodup) :
    ∃ a b, pd_preview_at_error_msg df idx col
      = a ++ pyListRepr (pySorted df.colNames) ++ b := by
  unfold pd_preview_at_error_msg
  rw [if_neg h]
  refine ⟨(if df.index.Nodup then at_error_base idx col
      else at_error_base idx col ++ at_error_index_clause) ++ at_error_cols_lead,
    ".", ?_⟩
  simp [String.append_assoc]

/-- A frame with columns `a`, `b`, `b`: only `b` is duplicated. -/
def dfC3 : DataFrame :=
  ⟨[("a", [some "x"]), ("b", [some "y"]), ("b", [some "z"])], ["r"], none⟩

/-- C3 fails as stated: on `dfC3` the duplicate column names are exactly
`["b"]`, but the code's message interpolates the sorted list of all
column names `["a", "b", "b"]`, so it differs from the message the claim
prescribes (same template, duplicates only). -/
theorem c3_counterexample :
    pySorted (dupColNames dfC3.colNames) = ["b"]
      ∧ pySorted dfC3.colNames = ["a", "b", "b"]
      ∧ pd_preview_at_error_msg dfC3 "r" "b" ≠ spec_preview_at_error_msg dfC3 "r" "b" := by
  refine ⟨by decide, by decide, by decide⟩

/-- Another frame with a duplicated column name, for the witness. -/
def dfC3w : DataFrame :=
  ⟨[("x", [some "1"]), ("y", [some "2"]), ("y", [some "3"])], ["r"], none⟩

/-- Witness for `c3_theorem` at `dfC3w`. -/
theorem c3_witness :
    ∃ a b, pd_preview_at_error_msg dfC3w "r" "y"
      = a ++ pyListRepr (pySorted dfC3w.colNames) ++ b :=
  c3_theorem dfC3w "r" "y" (by decide)

/-- pandas `df.rename(columns=m, inplace=True)`: every column label is
mapped through the dictionary, labels without an entry stay. -/
def DataFrame.rename (df : DataFrame) (m : List (String × String)) : DataFrame :=
  ⟨df.cols.map (fun c =>
      match m.find? (fun kv => kv.1 == c.1) with
      | some kv => (kv.2, c.2)
      | none => c),
    df.index, df.indexName⟩

/-- The default of the `remove_characters` parameter: the Python source
literal (hash at-sign ampersand dollar percent caret parens hyphen slash
and a doubly escaped backslash): eleven distinct characters. -/
def default_remove_characters : String := "#@&$%^()-/\\\\"

/-- One atom of a regex character class: a literal character, or a
backslash followed by the escaped character (the class only meets
non-alphanumeric escapes such as `\\`, which denote the character itself). -/
def nextAtom : List Char → Option (Char × List Char)
  | [] => none
  | c :: rest =>
    if c = bsChar then
      match rest with
      | [] => none
      | e :: r2 => some (e, r2)
    else some (c, rest)

/-- The ranges denoted by the inside of a regex character class `[...]`,
as `re` reads it: an atom, a hyphen and an atom form a range (this is how
the close-paren, hyphen, slash run in the default set becomes the range
from the close-paren to the slash); a hyphen
with nothing after it is a literal; a lone atom is the one-point range. -/
def classItems (fuel : Nat) (l : List Char) : List (Char × Char) :=
  match fuel with
  | 0 => []
  | fuel + 1 =>
    match nextAtom l with
    | none => []
    | some (a, rest) =>
      match rest with
      | '-' :: rest2 =>
        match nextAtom rest2 with
        | none => [(a, a), ('-', '-')]
        | some (b, rest3) => (a, b) :: classItems fuel rest3
      | _ => (a, a) :: classItems fuel rest

/-- Whether `re.compile("[" + content + "]")` matches the character `c`. -/
def regex_class_contains (content : String) (c : Char) : Bool :=
  (classItems (content.data.length + 1) content.data).any
    (fun ab => decide (ab.1.toNat ≤ c.toNat) && decide (c.toNat ≤ ab.2.toNat))

/-- `re.sub(f"[{content}]", repl, s)`: every matching character replaced. -/
def re_sub_class (content repl s : String) : String :=
  String.mk (s.data.flatMap
    (fun c => if regex_class_contains content c then repl.data else [c]))

/-- `pd_cols_remove_special_characters` (utils.py lines 167-209): builds a
rename map sending each targeted column name through the substitution and
applies it; a frame without columns, and the `not cols` default, follow the
source's falsiness tests. -/
def pd_cols_remove_special_characters (df : DataFrame) (cols : Option (List String))
    (remove_characters replace_char : String) : DataFrame :=
  if df.cols.isEmpty then df
  else
    let cols := match cols with
      | none => df.colNames
      | some cs => if cs.isEmpty then df.colNames else cs
    let rename_map := cols.map
      (fun col => (col, re_sub_class remove_characters replace_char col))
    if rename_map.isEmpty then df else df.rename rename_map

/-- A frame whose column name holds a `*`, a character outside the claimed
special set. -/
def dfC4 : DataFrame := ⟨[("a*b", [some "1"])], ["0"], none⟩

/-- C4's failing input evaluated: with the default arguments the column
`a*b` is renamed to `a_b`, because the unescaped hyphen in the default set
makes the close-paren to slash run a regex range that also matches `*`,
`+`, `,` and `.` — yet
`*` is not one of the characters of the default special set. -/
theorem c4_theorem :
    (pd_cols_remove_special_characters dfC4 none default_remove_characters "_").colNames
        = ["a_b"]
      ∧ regex_class_contains default_remove_characters '*' = true
      ∧ ¬ '*' ∈ default_remove_characters.data := by
  refine ⟨by decide, by decide, by decide⟩

/-- The observable outcome of a `pd_rename_cols` call: the frame after the
call (the source mutates it in place, so it is observable even when the
call raises), the rename map after the call (also mutated in place), and
the raised exception's message, if any. -/
structure RenameOutcome where
  df : DataFrame
  rename_map : List (String × String)
  error : Option String
deriving DecidableEq, Repr

/-- The message of Python's `KeyError` for a missing column label, as
`del df[k]` raises it. -/
def keyErrorMsg (k : String) : String :=
  "KeyError: " ++ pyRepr k

/-- `del df[name]`: removes every column labelled `name`. -/
def DataFrame.deleteCol (df : DataFrame) (name : String) : DataFrame :=
  ⟨df.cols.filter (fun c => !(c.1 == name)), df.index, df.indexName⟩

/-- The override loop of `pd_rename_cols` (utils.py lines 240-243):
`for out_col in rename_map.values(): if out_col in df_cols: del df[out_col]`,
where `df_cols` is the column-name set frozen before the loop.  A target
occurring twice among the values is deleted on its first visit and raises
`KeyError` on the second, aborting the call. -/
def delOverrideLoop (dfc : List String) : List String → DataFrame → DataFrame × Option String
  | [], df => (df, none)
  | v :: rest, df =>
    if v ∈ dfc then
      if v ∈ df.colNames then delOverrideLoop dfc rest (df.deleteCol v)
      else (df, some (keyErrorMsg v))
    else delOverrideLoop dfc rest df

/-- The rename-map keys absent from the frame's columns, in map order
(utils.py line 252). -/
def missingOf (df : DataFrame) (rename_map : List (String × String)) : List String :=
  (rename_map.map Prod.fst).filter (fun k => !(df.colNames.contains k))

/-- The rename map after `del rename_map[key]` for each missing key
(utils.py lines 255-256). -/
def prunedOf (df : DataFrame) (rename_map : List (String × String)) : List (String × String) :=
  rename_map.filter (fun kv => df.colNames.contains kv.1)

/-- The message of the exception raised on missing keys (line 258). -/
def missingKeysMsg (missing : List String) : String :=
  "Missing keys: " ++ pyListRepr missing ++ ", cannot rename"

/-- `pd_rename_cols` (utils.py lines 211-261).  An empty frame is returned
unchanged; with `override`, existing columns whose label is a rename target
are deleted first; keys missing from the (pre-deletion) column set then
either raise, or — with `ignore_missing` — are deleted from the
caller-supplied map; finally the (possibly pruned) map is applied. -/
def pd_rename_cols (df : DataFrame) (rename_map : List (String × String))
    (override ignore_missing : Bool) : RenameOutcome :=
  if df.cols.isEmpty then ⟨df, rename_map, none⟩
  else
    let df_cols := df.colNames
    let step :=
      if override then delOverrideLoop df_cols (rename_map.map Prod.snd) df
      else (df, none)
    match step with
    | (df1, some e) => ⟨df1, rename_map, some e⟩
    | (df1, none) =>
      let missing := missingOf df rename_map
      if missing.isEmpty then ⟨df1.rename rename_map, rename_map, none⟩
      else if ignore_missing then
        let pruned := prunedOf df rename_map
        ⟨df1.rename pruned, pruned, none⟩
      else ⟨df1, rename_map, some (missingKeysMsg missing)⟩

/-- Projecting the first components commutes with filtering on them. -/
theorem map_fst_filter_key (f : String → Bool) (l : List (String × List (Option String))) :
    (l.filter (fun c => f c.1)).map Prod.fst = (l.map Prod.fst).filter f := by
  rw [List.filter_map]
  rfl

/-- The override loop, when no colliding target value repeats, deletes
exactly the columns whose label is a rename-target value and lies in the
frozen column-name set `dfc`, and raises nothing. -/
theorem delOverrideLoop_filter (dfc : List String) :
    ∀ (vs : List String) (df : DataFrame),
      (vs.filter (fun v => dfc.contains v)).Nodup →
      (∀ v ∈ vs, v ∈ dfc → v ∈ df.colNames) →
      delOverrideLoop dfc vs df
        = (⟨df.cols.filter (fun c => !(vs.contains c.1 && dfc.contains c.1)),
            df.index, df.indexName⟩, none) := by
  intro vs
  induction vs with
  | nil =>
    intro df _ _
    unfold delOverrideLoop
    have h : df.cols.filter (fun c => !(([] : List String).contains c.1 && dfc.contains c.1))
        = df.cols := by
      rw [List.filter_eq_self]
      intro c _
      rfl
    rw [h]
  | cons v rest ih =>
    intro df hnd hpres
    unfold delOverrideLoop
    by_cases hv : v ∈ dfc
    · rw [if_pos hv, if_pos (hpres v (List.mem_cons_self v rest) hv)]
      have hvc : dfc.contains v = true := by
        simpa using hv
      have hfil : (v :: rest).filter (fun x => dfc.contains x)
          = v :: rest.filter (fun x => dfc.contains x) := by
        rw [List.filter_cons, if_pos hvc]
      rw [hfil] at hnd
      have hnotmem : ¬ v ∈ rest.filter (fun x => dfc.contains x) := (List.nodup_cons.mp hnd).1
      have hnd' : (rest.filter (fun x => dfc.contains x)).Nodup := (List.nodup_cons.mp hnd).2
      have hpres' : ∀ w ∈ rest, w ∈ dfc → w ∈ (df.deleteCol v).colNames := by
        intro w hw hwdfc
        have hwv : w ≠ v := by
          intro he
          subst he
          refine hnotmem (List.mem_filter.mpr ⟨hw, ?_⟩)
          simpa using hwdfc
        have hwdf : w ∈ df.cols.map Prod.fst := hpres w (List.mem_cons_of_mem v hw) hwdfc
        show w ∈ (df.cols.filter (fun c => !(c.1 == v))).map Prod.fst
        obtain ⟨c0, hc0mem, hc0⟩ := List.mem_map.mp hwdf
        refine List.mem_map.mpr ⟨c0, List.mem_filter.mpr ⟨hc0mem, ?_⟩, hc0⟩
        simp [hc0, hwv]
      rw [ih (df.deleteCol v) hnd' hpres']
      refine congrArg (fun x => (x, none)) ?_
      show DataFrame.mk
          ((df.cols.filter (fun c => !(c.1 == v))).filter
            (fun c => !(rest.contains c.1 && dfc.contains c.1)))
          df.index df.indexName = _
      refine congrArg (fun x => DataFrame.mk x df.index df.indexName) ?_
      rw [List.filter_filter]
      refine List.filter_congr ?_
      intro c _
      by_cases hcv : c.1 = v
      · have h1 : (c.1 == v) = true := by simp [hcv]
        have h2 : dfc.contains c.1 = true := by rw [hcv]; exact hvc
        rw [List.contains_cons, h1, h2]
        simp
      · have h1 : (c.1 == v) = false := by simp [hcv]
        rw [List.contains_cons, h1]
        simp
    · rw [if_neg hv]
      have hvc : dfc.contains v = false := by
        simpa using hv
      have hfil : (v :: rest).filter (fun x => dfc.contains x)
          = rest.filter (fun x => dfc.contains x) := by
        rw [List.filter_cons, if_neg (by rw [hvc]; exact Bool.false_ne_true)]
      rw [hfil] at hnd
      have hpres' : ∀ w ∈ rest, w ∈ dfc → w ∈ df.colNames := fun w hw =>
        hpres w (List.mem_cons_of_mem v hw)
      rw [ih df hnd hpres']
      refine congrArg (fun x => (x, none)) ?_
      refine congrArg (fun x => DataFrame.mk x df.index df.indexName) ?_
      refine List.filter_congr ?_
      intro c _
      by_cases hcv : c.1 = v
      · have h2 : dfc.contains c.1 = false := by rw [hcv]; exact hvc
        rw [List.contains_cons, h2]
        simp
      · have h1 : (c.1 == v) = false := by simp [hcv]
        rw [List.contains_cons, h1]
        simp

/-- Renaming through the one-entry map `{c: c}` leaves a column list
without a column labelled `c` unchanged. -/
theorem map_rename_id (c : String) (l : List (String × List (Option String)))
    (h : ¬ c ∈ l.map Prod.fst) :
    l.map (fun col => match [(c, c)].find? (fun kv => kv.1 == col.1) with
      | some kv => (kv.2, col.2)
      | none => col) = l := by
  revert h
  induction l with
  | nil => intro h; rfl
  | cons x xs ih =>
    intro h
    have hx : ¬ c = x.1 := by
      intro he
      exact h (by rw [List.map_cons, ← he]; exact List.mem_cons_self c (xs.map Prod.fst))
    have hxs : ¬ c ∈ xs.map Prod.fst := by
      intro he
      exact h (by rw [List.map_cons]; exact List.mem_cons_of_mem x.1 he)
    rw [List.map_cons, ih hxs]
    have hbeq : (c == x.1) = false := by simp [hx]
    have hfind : [(c, c)].find? (fun kv => kv.1 == x.1) = none := by
      simp [List.find?, hbeq]
    rw [hfind]

/-- C5.  On a frame with at least one column and a rename map with keys
missing from the columns, `pd_rename_cols` (with the default
`override=False`) raises an error listing exactly the missing keys when
`ignore_missing` is unset, leaving the frame untouched; with
`ignore_missing` set it removes the missing keys from the caller-supplied
map, applies the pruned map, and succeeds — and no missing key remains a
key of the resulting map. -/
theorem c5_theorem (df : DataFrame) (rename_map : List (String × String))
    (hcols : df.cols ≠ [])
    (hmiss : missingOf df rename_map ≠ []) :
    pd_rename_cols df rename_map false false
        = ⟨df, rename_map, some (missingKeysMsg (missingOf df rename_map))⟩
      ∧ pd_rename_cols df rename_map false true
          = ⟨df.rename (prunedOf df rename_map), prunedOf df rename_map, none⟩
      ∧ ∀ k ∈ missingOf df rename_map, ¬ k ∈ (prunedOf df rename_map).map Prod.fst := by
  have hemp : df.cols.isEmpty = false := by simp [List.isEmpty_iff, hcols]
  have hmse : (missingOf df rename_map).isEmpty = false := by
    simp [List.isEmpty_iff, hmiss]
  refine ⟨?_, ?_, ?_⟩
  · simp [pd_rename_cols, hemp, hmse]
  · simp [pd_rename_cols, hemp, hmse]
  · intro k hk hkp
    have h1 := (List.mem_filter.mp hk).2
    obtain ⟨kv, hkvmem, hkv1⟩ := List.mem_map.mp hkp
    have h2 := (List.mem_filter.mp hkvmem).2
    rw [hkv1] at h2
    rw [h2] at h1
    simp at h1

/-- A one-column frame for the C5 witness. -/
def dfC5w : DataFrame := ⟨[("a", [some "1"])], ["0"], none⟩

/-- Witness for `c5_theorem`: renaming by a map keyed `nonexistent` fails
with the missing-keys message on `dfC5w`. -/
theorem c5_witness :
    pd_rename_cols dfC5w [("nonexistent", "x")] false false
      = ⟨dfC5w, [("nonexistent", "x")],
          some (missingKeysMsg (missingOf dfC5w [("nonexistent", "x")]))⟩ :=
  (c5_theorem dfC5w [("nonexistent", "x")] (by decide) (by decide)).1

/-- C9, amended.  With `override` set and `ignore_missing` unset, a rename
map with a target colliding with an existing column and with a missing key
mutates the frame before failing — provided no colliding target value
repeats in the map: every column labelled by a rename-target value is
deleted, and only then is the missing-keys error raised, so the call fails
with the frame observably changed.  (When a colliding target value repeats,
the call instead fails during deletion with a `KeyError`, still after
mutating the frame — see the counterexample.) -/
theorem c9_theorem (df : DataFrame) (rename_map : List (String × String))
    (hnd : ((rename_map.map Prod.snd).filter (fun v => df.colNames.contains v)).Nodup)
    (hcoll : ∃ v, v ∈ rename_map.map Prod.snd ∧ v ∈ df.colNames)
    (hmiss : missingOf df rename_map ≠ []) :
    pd_rename_cols df rename_map true false
        = ⟨⟨df.cols.filter (fun c => !((rename_map.map Prod.snd).contains c.1)),
            df.index, df.indexName⟩,
          rename_map, some (missingKeysMsg (missingOf df rename_map))⟩
      ∧ (pd_rename_cols df rename_map true false).df ≠ df := by
  obtain ⟨v, hvmem, hvcol⟩ := hcoll
  have hcols : df.cols ≠ [] := by
    intro h
    rw [DataFrame.colNames, h] at hvcol
    cases hvcol
  have hemp : df.cols.isEmpty = false := by simp [List.isEmpty_iff, hcols]
  have hmse : (missingOf df rename_map).isEmpty = false := by
    simp [List.isEmpty_iff, hmiss]
  have hloop := delOverrideLoop_filter df.colNames (rename_map.map Prod.snd) df hnd
    (fun w _ hw => hw)
  have hfe : df.cols.filter
        (fun c => !((rename_map.map Prod.snd).contains c.1 && df.colNames.contains c.1))
      = df.cols.filter (fun c => !((rename_map.map Prod.snd).contains c.1)) := by
    refine List.filter_congr ?_
    intro c hc
    have hcc : df.colNames.contains c.1 = true := by
      have hmem : c.1 ∈ df.colNames := List.mem_map.mpr ⟨c, hc, rfl⟩
      exact List.elem_eq_true_of_mem hmem
    rw [hcc, Bool.and_true]
  rw [hfe] at hloop
  have heq : pd_rename_cols df rename_map true false
      = ⟨⟨df.cols.filter (fun c => !((rename_map.map Prod.snd).contains c.1)),
          df.index, df.indexName⟩,
        rename_map, some (missingKeysMsg (missingOf df rename_map))⟩ := by
    simp [pd_rename_cols, hemp, hmse, hloop]
  refine ⟨heq, ?_⟩
  rw [heq]
  intro habs
  have hcolseq : df.cols.filter
        (fun c => !((rename_map.map Prod.snd).contains c.1)) = df.cols :=
    congrArg DataFrame.cols habs
  obtain ⟨c0, hc0, hc01⟩ := List.mem_map.mp hvcol
  have hlt : (df.cols.filter
        (fun c => !((rename_map.map Prod.snd).contains c.1))).length < df.cols.length := by
    rw [List.length_filter_lt_length_iff_exists]
    refine ⟨c0, hc0, ?_⟩
    have hir : (rename_map.map Prod.snd).contains c0.1 = true := by
      rw [hc01]
      exact List.elem_eq_true_of_mem hvmem
    show ¬ ((!((rename_map.map Prod.snd).contains c0.1)) = true)
    rw [hir]
    decide
  rw [hcolseq] at hlt
  exact Nat.lt_irrefl _ hlt

/-- A two-column frame for the C9 counterexample. -/
def dfC9 : DataFrame := ⟨[("c", [some "v"]), ("x", [some "w"])], ["0"], none⟩

/-- C9 fails as stated: with `override` set, `ignore_missing` unset, the
rename target `c` colliding with an existing column and the keys `a`, `b`
both missing, the map `{a: c, b: c}` repeats the colliding target, so the
second loop iteration raises `KeyError` — the missing-keys error is never
raised — while the frame has already lost column `c`. -/
theorem c9_counterexample :
    (pd_rename_cols dfC9 [("a", "c"), ("b", "c")] true false).error
        = some (keyErrorMsg "c")
      ∧ (pd_rename_cols dfC9 [("a", "c"), ("b", "c")] true false).error
          ≠ some (missingKeysMsg (missingOf dfC9 [("a", "c"), ("b", "c")]))
      ∧ (pd_rename_cols dfC9 [("a", "c"), ("b", "c")] true false).df ≠ dfC9 := by
  refine ⟨by decide, by decide, by decide⟩

/-- A two-column frame for the C9 witness. -/
def dfC9w : DataFrame := ⟨[("c", [some "v"]), ("x", [some "w"])], ["0"], none⟩

/-- Witness for `c9_theorem`: renaming `{a: c}` with `override` on `dfC9w`
fails, yet the frame was mutated. -/
theorem c9_witness : (pd_rename_cols dfC9w [("a", "c")] true false).df ≠ dfC9w :=
  (c9_theorem dfC9w [("a", "c")] (by decide) ⟨"c", by decide, by decide⟩ (by decide)).2

/-- C10.  With `override` set, renaming a column `c` to itself deletes the
column entirely: `c` is removed as a colliding rename target before the
rename is applied, the rename map `{c: c}` has no missing key (the check
uses the pre-deletion column set), and the subsequent rename touches no
remaining column — so the call succeeds and `c` is gone. -/
theorem c10_theorem (df : DataFrame) (c : String) (ign : Bool)
    (hc : c ∈ df.colNames) :
    pd_rename_cols df [(c, c)] true ign
        = ⟨⟨df.cols.filter (fun col => !(col.1 == c)), df.index, df.indexName⟩,
           [(c, c)], none⟩
      ∧ ¬ c ∈ (pd_rename_cols df [(c, c)] true ign).df.colNames := by
  have hcols : df.cols ≠ [] := by
    intro h
    rw [DataFrame.colNames, h] at hc
    cases hc
  have hemp : df.cols.isEmpty = false := by simp [List.isEmpty_iff, hcols]
  have hloop : delOverrideLoop df.colNames [c] df = (df.deleteCol c, none) := by
    unfold delOverrideLoop
    rw [if_pos hc, if_pos hc]
    rfl
  have hcc : df.colNames.contains c = true := by simpa using hc
  have hmse : (missingOf df [(c, c)]).isEmpty = true := by
    simp [missingOf, hcc]
    exact hc
  have hnotin : ¬ c ∈ (df.deleteCol c).cols.map Prod.fst := by
    intro habs
    obtain ⟨c0, hc0mem, hc01⟩ := List.mem_map.mp habs
    have h2 := (List.mem_filter.mp hc0mem).2
    rw [hc01] at h2
    simp at h2
  have hren : (df.deleteCol c).rename [(c, c)] = df.deleteCol c := by
    unfold DataFrame.rename
    have hmap := map_rename_id c (df.deleteCol c).cols hnotin
    rw [hmap]
  have heq : pd_rename_cols df [(c, c)] true ign
      = ⟨⟨df.cols.filter (fun col => !(col.1 == c)), df.index, df.indexName⟩,
         [(c, c)], none⟩ := by
    simp [pd_rename_cols, hemp, hmse, hloop, hren]
    rfl
  refine ⟨heq, ?_⟩
  rw [heq]
  intro habs
  obtain ⟨c0, hc0mem, hc01⟩ := List.mem_map.mp habs
  have h2 := (List.mem_filter.mp hc0mem).2
  rw [hc01] at h2
  simp at h2

/-- A two-column frame for the C10 witness. -/
def dfC10w : DataFrame := ⟨[("c", [some "1"]), ("d", [some "2"])], ["0"], none⟩

/-- Witness for `c10_theorem`: the self-rename `{c: c}` with `override`
removes column `c` from `dfC10w`. -/
theorem c10_witness :
    ¬ "c" ∈ (pd_rename_cols dfC10w [("c", "c")] true false).df.colNames :=
  (c10_theorem dfC10w "c" false (by decide)).2

/-- The module's ISO-8601 output format constant (utils.py line 14). -/
def ISO_8601_FORMAT : String := "%Y-%m-%dT%H:%M:%S"

/-- Civil date from a count of days since 1970-01-01 in the proleptic
Gregorian calendar (as Python's `datetime` arithmetic computes it):
year, month, day. -/
def civilFromDays (z0 : Int) : Int × Nat × Nat :=
  let z := z0 + 719468
  let era := Int.fdiv z 146097
  let doe := (z - era * 146097).toNat
  let yoe := (doe - doe / 1460 + doe / 36524 - doe / 146096) / 365
  let y := (yoe : Int) + era * 400
  let doy := doe - (365 * yoe + yoe / 4 - yoe / 100)
  let mp := (5 * doy + 2) / 153
  let d := doy - (153 * mp + 2) / 5 + 1
  let m := if mp < 10 then mp + 3 else mp - 9
  (if m ≤ 2 then y + 1 else y, m, d)

/-- Two-digit zero padding, as `strftime` renders month through second. -/
def pad2 (n : Nat) : String :=
  if n < 10 then "0" ++ toString n else toString n

/-- Year rendering of `%Y`, zero-padded to four digits. -/
def pad4Year (y : Int) : String :=
  if y < 0 then "-" ++ toString (-y)
  else
    let s := toString y
    if s.length < 4 then String.mk (List.replicate (4 - s.length) '0') ++ s else s

/-- The broken-down UTC instant Python's `datetime` holds (microseconds
dropped, as the used format has no fractional directive). -/
structure PyDateTime where
  year : Int
  month : Nat
  day : Nat
  hour : Nat
  minute : Nat
  second : Nat
deriving DecidableEq, Repr

/-- `datetime(1970, 1, 1) + timedelta(seconds=t)` for a whole number of
seconds `t` (the display truncation of a fractional `timedelta` to whole
seconds is the floor, folded into the caller's floor division). -/
def datetime_from_epoch_seconds (t : Int) : PyDateTime :=
  let days := Int.fdiv t 86400
  let sod := (t - days * 86400).toNat
  let ymd := civilFromDays days
  ⟨ymd.1, ymd.2.1, ymd.2.2, sod / 3600, (sod % 3600) / 60, sod % 60⟩

/-- `datetime.strftime` over the directives the module uses
(`%Y %m %d %H %M %S` and literal text; other directives are kept
verbatim, which the claims never exercise). -/
def strftimeChars (dt : PyDateTime) : List Char → String
  | [] => ""
  | '%' :: c :: rest =>
    (if c = 'Y' then pad4Year dt.year
     else if c = 'm' then pad2 dt.month
     else if c = 'd' then pad2 dt.day
     else if c = 'H' then pad2 dt.hour
     else if c = 'M' then pad2 dt.minute
     else if c = 'S' then pad2 dt.second
     else if c = '%' then "%"
     else "%" ++ String.singleton c) ++ strftimeChars dt rest
  | c :: rest => String.singleton c ++ strftimeChars dt rest

/-- `strftime` on a format string. -/
def strftime (dt : PyDateTime) (format : String) : String :=
  strftimeChars dt format.data

/-- `convert_epoch_to_datetime` (utils.py lines 263-278).  The input is
modelled as integer milliseconds (`not epoch` is `epoch = 0`; a `None`
input trivially yields `None` the same way).  `float(epoch) / 1000`
seconds added to the epoch origin and formatted without a fractional
directive displays the floor of the quotient, i.e. `Int.fdiv epoch 1000`
whole seconds; Python's year range 1..9999 is idealized to the full
proleptic calendar. -/
def convert_epoch_to_datetime (epoch : Int) (format : String) : Option String :=
  if epoch = 0 then none
  else some (strftime (datetime_from_epoch_seconds (Int.fdiv epoch 1000)) format)

/-- C6.  The converter returns absence exactly on the falsy input 0;
otherwise it divides the millisecond input by 1000, adds the seconds to
1970-01-01T00:00:00 UTC and formats the instant with the format string —
in particular 0 yields no value and 1000 yields `1970-01-01T00:00:01`. -/
theorem c6_theorem :
    (∀ e : Int, convert_epoch_to_datetime e ISO_8601_FORMAT = none ↔ e = 0)
      ∧ convert_epoch_to_datetime 0 ISO_8601_FORMAT = none
      ∧ convert_epoch_to_datetime 1000 ISO_8601_FORMAT = some "1970-01-01T00:00:01"
      ∧ ∀ e : Int, e ≠ 0 → convert_epoch_to_datetime e ISO_8601_FORMAT
          = some (strftime (datetime_from_epoch_seconds (Int.fdiv e 1000)) ISO_8601_FORMAT) := by
  refine ⟨?_, rfl, by decide, ?_⟩
  · intro e
    constructor
    · intro h
      by_contra hne
      rw [convert_epoch_to_datetime, if_neg hne] at h
      cases h
    · intro h
      rw [h]
      rfl
  · intro e he
    rw [convert_epoch_to_datetime, if_neg he]

/-- Witness for `c6_theorem`: the two biconditional/conditional parts at
the concrete inputs 0 and 1000. -/
theorem c6_witness :
    convert_epoch_to_datetime 0 ISO_8601_FORMAT = none
      ∧ convert_epoch_to_datetime 1000 ISO_8601_FORMAT
          = some (strftime (datetime_from_epoch_seconds (Int.fdiv 1000 1000)) ISO_8601_FORMAT) :=
  ⟨(c6_theorem.1 0).mpr rfl, c6_theorem.2.2.2 1000 (by decide)⟩

/-- A decoded JSON value.  Numbers keep their validated lexeme (the
claims under study never compare numeric values across spellings). -/
inductive JValue where
  | jnull
  | jbool (b : Bool)
  | jnum (lexeme : String)
  | jstr (s : String)
  | jarr (elems : List JValue)
  | jobj (members : List (String × JValue))
deriving Repr

/-- JSON's whitespace characters. -/
def isJsonWs (c : Char) : Bool :=
  c = ' ' || c = Char.ofNat 9 || c = Char.ofNat 10 || c = Char.ofNat 13

/-- Drop leading JSON whitespace. -/
def skipWs : List Char → List Char
  | [] => []
  | c :: rest => if isJsonWs c then skipWs rest else c :: rest

/-- Hexadecimal digit value. -/
def hexVal (c : Char) : Option Nat :=
  if 48 ≤ c.toNat && c.toNat ≤ 57 then some (c.toNat - 48)
  else if 97 ≤ c.toNat && c.toNat ≤ 102 then some (c.toNat - 87)
  else if 65 ≤ c.toNat && c.toNat ≤ 70 then some (c.toNat - 55)
  else none

/-- Lex the body of a JSON string after the opening quote: strict about
raw control characters and unknown escapes, as `json.loads` is. -/
def lexString (acc : List Char) : List Char → Except String (String × List Char)
  | [] => Except.error "Unterminated string"
  | c :: rest =>
    if c = dqChar then Except.ok (String.mk acc.reverse, rest)
    else if c = bsChar then
      match rest with
      | [] => Except.error "Unterminated string"
      | e :: rest2 =>
        if e = dqChar || e = bsChar || e = '/' then lexString (e :: acc) rest2
        else if e = 'b' then lexString (Char.ofNat 8 :: acc) rest2
        else if e = 'f' then lexString (Char.ofNat 12 :: acc) rest2
        else if e = 'n' then lexString (Char.ofNat 10 :: acc) rest2
        else if e = 'r' then lexString (Char.ofNat 13 :: acc) rest2
        else if e = 't' then lexString (Char.ofNat 9 :: acc) rest2
        else if e = 'u' then
          match rest2 with
          | h1 :: h2 :: h3 :: h4 :: rest3 =>
            match hexVal h1, hexVal h2, hexVal h3, hexVal h4 with
            | some a, some b, some c4, some d =>
              lexString (Char.ofNat (((a * 16 + b) * 16 + c4) * 16 + d) :: acc) rest3
            | _, _, _, _ => Except.error "Invalid unicode escape"
          | _ => Except.error "Invalid unicode escape"
        else Except.error "Invalid escape"
    else if c.toNat < 32 then Except.error "Invalid control character"
    else lexString (c :: acc) rest

/-- Lex a JSON number: an optional minus, digits, optional fraction and
exponent (a malformed tail is left unconsumed, as the tokenizer's regular
expression does, surfacing later as trailing data). -/
def lexNumber (l : List Char) : Except String (String × List Char) :=
  let p1 : List Char × List Char := match l with
    | '-' :: rest => (['-'], rest)
    | _ => (([] : List Char), l)
  let ds : List Char × List Char := p1.2.span (·.isDigit)
  if ds.1.isEmpty then Except.error "Expecting value"
  else
    let p3 : List Char × List Char := match ds.2 with
      | '.' :: rest =>
        let fs := rest.span (·.isDigit)
        if fs.1.isEmpty then (([] : List Char), ds.2) else ('.' :: fs.1, fs.2)
      | _ => (([] : List Char), ds.2)
    let p4 : List Char × List Char := match p3.2 with
      | e :: rest =>
        if e = 'e' || e = 'E' then
          match rest with
          | s :: rest2 =>
            if s = '+' || s = '-' then
              let es := rest2.span (·.isDigit)
              if es.1.isEmpty then (([] : List Char), p3.2) else (e :: s :: es.1, es.2)
            else
              let es := rest.span (·.isDigit)
              if es.1.isEmpty then (([] : List Char), p3.2) else (e :: es.1, es.2)
          | [] => (([] : List Char), p3.2)
        else (([] : List Char), p3.2)
      | [] => (([] : List Char), p3.2)
    Except.ok (String.mk (p1.1 ++ ds.1 ++ p3.1 ++ p4.1), p4.2)

mutual

/-- Parse one JSON value (fuel bounds the recursion; `json_loads` supplies
more than any input can consume). -/
def parseValue : Nat → List Char → Except String (JValue × List Char)
  | 0, _ => Except.error "Nesting exhausted"
  | fuel + 1, l =>
    match skipWs l with
    | [] => Except.error "Expecting value"
    | c :: rest =>
      if c = dqChar then
        match lexString [] rest with
        | Except.error e => Except.error e
        | Except.ok (s, r) => Except.ok (JValue.jstr s, r)
      else if c = Char.ofNat 123 then parseObjStart fuel rest
      else if c = '[' then parseArrStart fuel rest
      else if c = 't' then
        match rest with
        | 'r' :: 'u' :: 'e' :: r => Except.ok (JValue.jbool true, r)
        | _ => Except.error "Expecting value"
      else if c = 'f' then
        match rest with
        | 'a' :: 'l' :: 's' :: 'e' :: r => Except.ok (JValue.jbool false, r)
        | _ => Except.error "Expecting value"
      else if c = 'n' then
        match rest with
        | 'u' :: 'l' :: 'l' :: r => Except.ok (JValue.jnull, r)
        | _ => Except.error "Expecting value"
      else if c = '-' || c.isDigit then
        match lexNumber (c :: rest) with
        | Except.error e => Except.error e
        | Except.ok (s, r) => Except.ok (JValue.jnum s, r)
      else Except.error "Expecting value"

/-- Parse an object body after the opening brace. -/
def parseObjStart : Nat → List Char → Except String (JValue × List Char)
  | 0, _ => Except.error "Nesting exhausted"
  | fuel + 1, l =>
    match skipWs l with
    | [] => Except.error "Unterminated object"
    | c :: rest =>
      if c = Char.ofNat 125 then Except.ok (JValue.jobj [], rest)
      else parseObjMembers fuel (c :: rest) []

/-- Parse the members of a non-empty object. -/
def parseObjMembers : Nat → List Char → List (String × JValue) → Except String (JValue × List Char)
  | 0, _, _ => Except.error "Nesting exhausted"
  | fuel + 1, l, acc =>
    match skipWs l with
    | [] => Except.error "Unterminated object"
    | c :: rest =>
      if c = dqChar then
        match lexString [] rest with
        | Except.error e => Except.error e
        | Except.ok (k, r1) =>
          match skipWs r1 with
          | ':' :: r2 =>
            match parseValue fuel r2 with
            | Except.error e => Except.error e
            | Except.ok (v, r3) =>
              match skipWs r3 with
              | ',' :: r4 => parseObjMembers fuel r4 (acc ++ [(k, v)])
              | c2 :: r4 =>
                if c2 = Char.ofNat 125 then Except.ok (JValue.jobj (acc ++ [(k, v)]), r4)
                else Except.error "Expecting delimiter"
              | [] => Except.error "Unterminated object"
          | _ => Except.error "Expecting colon"
      else Except.error "Expecting property name"

/-- Parse an array body after the opening bracket. -/
def parseArrStart : Nat → List Char → Except String (JValue × List Char)
  | 0, _ => Except.error "Nesting exhausted"
  | fuel + 1, l =>
    match skipWs l with
    | [] => Except.error "Unterminated array"
    | c :: rest =>
      if c = ']' then Except.ok (JValue.jarr [], rest)
      else parseArrElems fuel (c :: rest) []

/-- Parse the elements of a non-empty array. -/
def parseArrElems : Nat → List Char → List JValue → Except String (JValue × List Char)
  | 0, _, _ => Except.error "Nesting exhausted"
  | fuel + 1, l, acc =>
    match parseValue fuel l with
    | Except.error e => Except.error e
    | Except.ok (v, r1) =>
      match skipWs r1 with
      | ',' :: r2 => parseArrElems fuel r2 (acc ++ [v])
      | ']' :: r2 => Except.ok (JValue.jarr (acc ++ [v]), r2)
      | _ => Except.error "Expecting delimiter"

end

/-- `json.loads` on one line: one value, surrounded by optional
whitespace, nothing else. -/
def json_loads (s : String) : Except String JValue :=
  match parseValue (4 * s.length + 4) s.data with
  | Except.error e => Except.error e
  | Except.ok (v, rest) =>
    if (skipWs rest).isEmpty then Except.ok v else Except.error "Extra data"

/-- `load_json` (utils.py lines 67-69) on the opened file's lines:
`[json.loads(line) for line in f]` decodes the lines in order; the first
raised decode error aborts the whole comprehension with no partial result
(the file-handle acquisition itself is outside the embedding). -/
def load_json : List String → Except String (List JValue)
  | [] => Except.ok []
  | l :: rest =>
    match json_loads l with
    | Except.error e => Except.error e
    | Except.ok v =>
      match load_json rest with
      | Except.error e => Except.error e
      | Except.ok vs => Except.ok (v :: vs)

/-- A failing first line propagates its error. -/
theorem load_json_cons_err (l : String) (rest : List String) (e : String)
    (h : json_loads l = Except.error e) :
    load_json (l :: rest) = Except.error e := by
  simp only [load_json, h]

/-- A decoded head followed by a decoded tail yields the cons. -/
theorem load_json_cons_ok_ok (l : String) (rest : List String) (v : JValue)
    (vs : List JValue) (h1 : json_loads l = Except.ok v)
    (h2 : load_json rest = Except.ok vs) :
    load_json (l :: rest) = Except.ok (v :: vs) := by
  simp only [load_json, h1, h2]

/-- A decoded head followed by a failing tail propagates the error. -/
theorem load_json_cons_ok_err (l : String) (rest : List String) (v : JValue)
    (e : String) (h1 : json_loads l = Except.ok v)
    (h2 : load_json rest = Except.error e) :
    load_json (l :: rest) = Except.error e := by
  simp only [load_json, h1, h2]

/-- C7.  The loader returns the decoded values of the lines, one per line
in line order, exactly when every line decodes; otherwise it fails with
the decode error of the first bad line — every earlier line decodes, and
no partial sequence is produced. -/
theorem c7_theorem (lines : List String) :
    (∀ vs, load_json lines = Except.ok vs
        ↔ List.Forall₂ (fun l v => json_loads l = Except.ok v) lines vs)
      ∧ ∀ e, load_json lines = Except.error e →
          ∃ i, ∃ h : i < lines.length,
            json_loads (lines.get ⟨i, h⟩) = Except.error e
              ∧ ∀ j, ∀ hj : j < i, ∃ v,
                  json_loads (lines.get ⟨j, Nat.lt_trans hj h⟩) = Except.ok v := by
  induction lines with
  | nil =>
    constructor
    · intro vs
      constructor
      · intro h
        cases vs with
        | nil => exact List.Forall₂.nil
        | cons v vs =>
          simp only [load_json] at h
          cases h
      · intro h
        cases h
        rfl
    · intro e h
      simp only [load_json] at h
      cases h
  | cons l rest ih =>
    constructor
    · intro vs
      constructor
      · intro h
        cases hjl : json_loads l with
        | error e0 =>
          rw [load_json_cons_err l rest e0 hjl] at h
          cases h
        | ok v0 =>
          cases hlr : load_json rest with
          | error e0 =>
            rw [load_json_cons_ok_err l rest v0 e0 hjl hlr] at h
            cases h
          | ok vs0 =>
            rw [load_json_cons_ok_ok l rest v0 vs0 hjl hlr] at h
            injection h with h2
            rw [← h2]
            exact List.Forall₂.cons hjl ((ih.1 vs0).mp hlr)
      · intro h
        cases h with
        | cons h1 h2 =>
          exact load_json_cons_ok_ok _ _ _ _ h1 ((ih.1 _).mpr h2)
    · intro e h
      cases hjl : json_loads l with
      | error e0 =>
        rw [load_json_cons_err l rest e0 hjl] at h
        injection h with he
        refine ⟨0, Nat.succ_pos rest.length, ?_, ?_⟩
        · rw [← he]
          exact hjl
        · intro j hj
          cases hj
      | ok v0 =>
        cases hlr : load_json rest with
        | ok vs0 =>
          rw [load_json_cons_ok_ok l rest v0 vs0 hjl hlr] at h
          cases h
        | error e0 =>
          rw [load_json_cons_ok_err l rest v0 e0 hjl hlr] at h
          injection h with he
          obtain ⟨i, hi, hb, hprev⟩ := ih.2 e0 hlr
          refine ⟨i + 1, Nat.succ_lt_succ hi, ?_, ?_⟩
          · rw [← he]
            exact hb
          · intro j hj
            cases j with
            | zero => exact ⟨v0, hjl⟩
            | succ j2 =>
              obtain ⟨v, hv⟩ := hprev j2 (Nat.lt_of_succ_lt_succ hj)
              exact ⟨v, hv⟩

/-- The first line of the spec's loader example. -/
def jsonLine1 : String := "\x7b\"a\":1\x7d"

/-- The second line of the spec's loader example. -/
def jsonLine2 : String := "\x7b\"a\":2\x7d"

/-- Witness for `c7_theorem`: the two-line file of the spec decodes to
the two objects, in order. -/
theorem c7_witness :
    load_json [jsonLine1, jsonLine2]
      = Except.ok [JValue.jobj [("a", JValue.jnum "1")],
                   JValue.jobj [("a", JValue.jnum "2")]] :=
  ((c7_theorem [jsonLine1, jsonLine2]).1 _).mpr
    (List.Forall₂.cons rfl (List.Forall₂.cons rfl List.Forall₂.nil))

/-- `df.head(n)`: the first `n` rows (`None` keeps all rows, as
`iloc[:None]` does). -/
def DataFrame.head (df : DataFrame) (n : Option Nat) : DataFrame :=
  match n with
  | none => df
  | some k => ⟨df.cols.map (fun c => (c.1, c.2.take k)), df.index.take k, df.indexName⟩

/-- `df.at[idx, col]` for a label pair taken from the frame: pandas scalar
access succeeds exactly when the row label and the column label are each
unique in their axis, and raises `ValueError` otherwise; `pd_preview`
turns that into its diagnostic message. -/
def df_at (df : DataFrame) (idx col : String) : Except String (Option String) :=
  if df.index.count idx = 1 && df.colNames.count col = 1 then
    Except.ok ((df.getColVals col).getD (df.index.findIdx (· == idx)) none)
  else Except.error (pd_preview_at_error_msg df idx col)

/-- `repr` of a previewed cell: `None` for a null, `pyRepr` for a string. -/
def pyReprCell : Option String → String
  | none => "None"
  | some s => pyRepr s

/-- One cell's line of the preview report (utils.py lines 150-161). -/
def preview_cell_line (counter : Nat) (col dtype : String)
    (columns_only calculate_lengths : Bool) (clmap : List (String × Nat))
    (val : Option String) : String :=
  if columns_only then "    " ++ sqStr ++ col ++ sqStr ++ ","
  else if calculate_lengths then
    "    " ++ toString counter ++ ". " ++ sqStr ++ col ++ sqStr ++ " (" ++ dtype
      ++ ": " ++ toString ((clmap.lookup col).getD 0) ++ "): " ++ pyReprCell val
  else
    "    " ++ toString counter ++ ". " ++ sqStr ++ col ++ sqStr ++ " (" ++ dtype
      ++ "): " ++ pyReprCell val

/-- The inner column loop of one previewed row (utils.py lines 126-161):
the counter advances over all columns, skipped or not; a requested column
is looked up in the full frame and may raise. -/
def preview_row_cells (df : DataFrame) (req : List String)
    (columns_only calculate_lengths : Bool) (clmap : List (String × Nat))
    (idx : String) : List (String × String) → Nat → Except String (List String)
  | [], _ => Except.ok []
  | (col, dtype) :: rowRest, counter =>
    if col ∈ req then
      match df_at df idx col with
      | Except.error e => Except.error e
      | Except.ok val =>
        match preview_row_cells df req columns_only calculate_lengths clmap idx
            rowRest (counter + 1) with
        | Except.error e => Except.error e
        | Except.ok ls =>
          Except.ok (preview_cell_line (counter + 1) col dtype columns_only
            calculate_lengths clmap val :: ls)
    else preview_row_cells df req columns_only calculate_lengths clmap idx
      rowRest (counter + 1)

/-- The row loop of the preview (utils.py lines 123-161), over the head's
index labels. -/
def preview_rows (df : DataFrame) (req : List String)
    (columns_only calculate_lengths : Bool) (clmap : List (String × Nat)) :
    List String → Except String (List String)
  | [] => Except.ok []
  | idx :: restIdx =>
    match preview_row_cells df req columns_only calculate_lengths clmap idx
        (df.colNames.zip (df.colNames.map (fun _ => "object"))) 0 with
    | Except.error e => Except.error e
    | Except.ok cellLines =>
      match preview_rows df req columns_only calculate_lengths clmap restIdx with
      | Except.error e => Except.error e
      | Except.ok more => Except.ok ((("Row: " ++ idx) :: cellLines) ++ more)

/-- The preview header, with the tag when one is given and truthy
(utils.py lines 104-107). -/
def preview_header (tag : Option String) : String :=
  match tag with
  | some t =>
    if t.isEmpty then "\n----- DATAFRAME PREVIEW -----"
    else "\n----- DATAFRAME PREVIEW (tag: " ++ t ++ ") -----"
  | none => "\n----- DATAFRAME PREVIEW -----"

/-- The shape line (utils.py line 109). -/
def preview_shape_line (df : DataFrame) : String :=
  "DF shape: (" ++ toString df.index.length ++ ", "
    ++ toString df.cols.length ++ ")"

/-- The index-name line, for a truthy index name (utils.py lines 110-113). -/
def preview_idx_line (df : DataFrame) : String :=
  match df.indexName with
  | some n => if n.isEmpty then "No index name defined" else "Index name: " ++ n
  | none => "No index name defined"

/-- The frame over which widths are computed (utils.py lines 117-119):
the head when a row count is given, a copy of the whole frame otherwise. -/
def preview_length_frame (df : DataFrame) (num_rows : Option Nat) : DataFrame :=
  match num_rows with
  | some _ => df.head num_rows
  | none => df

/-- The width map the preview annotates with (utils.py lines 115-121). -/
def preview_clmap (df : DataFrame) (num_rows : Option Nat)
    (calculate_lengths : Bool) : List (String × Nat) :=
  if calculate_lengths then calc_col_lengths (preview_length_frame df num_rows)
  else []

/-- `pd_preview` (utils.py lines 71-165): builds the report (header with
optional tag, shape, index-name line, then the previewed rows), emits it
to the logging sink, and returns the original frame.  The cell dtype is
`object` for the string-celled frames of this model.  The result is the
log text paired with the returned frame; a failed cell lookup raises
instead. -/
def pd_preview (df : DataFrame) (cols : Option (List String))
    (num_rows : Option Nat) (columns_only : Bool) (tag : Option String)
    (calculate_lengths : Bool) : Except String (String × DataFrame) :=
  match preview_rows df (cols.getD df.colNames) columns_only calculate_lengths
      (preview_clmap df num_rows calculate_lengths) (df.head num_rows).index with
  | Except.error e => Except.error e
  | Except.ok rowLines =>
    Except.ok (String.intercalate "\n"
      (preview_header tag :: preview_shape_line df :: preview_idx_line df :: rowLines), df)

/-- C8.  Whenever `pd_preview` does not raise, it returns the original
frame: the same column set, values and index — its only other effect is
the report it sends to the logging sink (the `String` it is paired with
here). -/
theorem c8_theorem (df : DataFrame) (cols : Option (List String))
    (num_rows : Option Nat) (columns_only : Bool) (tag : Option String)
    (calculate_lengths : Bool) (out : String × DataFrame)
    (h : pd_preview df cols num_rows columns_only tag calculate_lengths
      = Except.ok out) : out.2 = df := by
  unfold pd_preview at h
  cases hpr : preview_rows df (cols.getD df.colNames) columns_only calculate_lengths
      (preview_clmap df num_rows calculate_lengths) (df.head num_rows).index with
  | error e =>
    rw [hpr] at h
    exact Except.noConfusion h
  | ok rowLines =>
    rw [hpr] at h
    have h2 := Except.ok.inj h
    rw [← h2]

/-- A one-column, zero-row frame for the C8 witness. -/
def dfC8w : DataFrame := ⟨[("a", [])], [], none⟩

/-- The report `pd_preview` logs for `dfC8w` with default arguments. -/
def dfC8wLog : String :=
  "\n----- DATAFRAME PREVIEW -----\nDF shape: (0, 1)\nNo index name defined"

/-- Witness for `c8_theorem`: previewing `dfC8w` succeeds and returns the
frame itself. -/
theorem c8_witness : ((dfC8wLog, dfC8w) : String × DataFrame).2 = dfC8w :=
  c8_theorem dfC8w none (some 1) false none false (dfC8wLog, dfC8w) rfl
